import Mathlib

/-!
Verification development for the Metal bridge surface declared in
src/src/gpu/metal_bridge.h. The repository ships only the C header
(declarations and numeric constants); the behaviour of each call is laid
down by the design document (the spec). Numeric constants and call
signatures below are embedded from the header; stateful behaviour is
modelled from the spec, and every such definition says so in its doc
comment.
-/

namespace MetalBridge

/-- Error taxonomy of the bridge (spec section 7): the coarse error kinds a
call can signal. -/
inductive MetalError where
  | invalidHandle
  | invalidState
  | invalidArgument
  | sizeMismatch
  | symbolNotFound
  | deviceUnavailable
  | unsupportedOperation
  deriving DecidableEq, Repr

/- Numeric constants embedded from src/src/gpu/metal_bridge.h. -/

/-- METAL_RESOURCE_STORAGE_MODE_SHARED, header line 57. -/
def METAL_RESOURCE_STORAGE_MODE_SHARED : Nat := 0

/-- METAL_RESOURCE_STORAGE_MODE_MANAGED, header line 58: 1 shifted left by 4. -/
def METAL_RESOURCE_STORAGE_MODE_MANAGED : Nat := 1 <<< 4

/-- METAL_RESOURCE_STORAGE_MODE_PRIVATE, header line 59: 2 shifted left by 4. -/
def METAL_RESOURCE_STORAGE_MODE_PRIVATE : Nat := 2 <<< 4

/-- METAL_PIXEL_FORMAT_BGRA8_UNORM, header line 131. -/
def METAL_PIXEL_FORMAT_BGRA8_UNORM : Nat := 80

/-- METAL_PIXEL_FORMAT_RGBA8_UNORM, header line 132. -/
def METAL_PIXEL_FORMAT_RGBA8_UNORM : Nat := 70

/-- METAL_PIXEL_FORMAT_RGBA32_FLOAT, header line 133. -/
def METAL_PIXEL_FORMAT_RGBA32_FLOAT : Nat := 115

/-- METAL_BLEND_FACTOR_ZERO, header line 136. -/
def METAL_BLEND_FACTOR_ZERO : Nat := 0

/-- METAL_BLEND_FACTOR_ONE, header line 137. -/
def METAL_BLEND_FACTOR_ONE : Nat := 1

/-- METAL_BLEND_FACTOR_SOURCE_ALPHA, header line 138. -/
def METAL_BLEND_FACTOR_SOURCE_ALPHA : Nat := 4

/-- METAL_BLEND_FACTOR_ONE_MINUS_SOURCE_ALPHA, header line 139. -/
def METAL_BLEND_FACTOR_ONE_MINUS_SOURCE_ALPHA : Nat := 5

/-- METAL_BLEND_OP_ADD, header line 142. -/
def METAL_BLEND_OP_ADD : Nat := 0

/-- METAL_PRIMITIVE_TYPE_POINT, header line 145. -/
def METAL_PRIMITIVE_TYPE_POINT : Nat := 0

/-- METAL_PRIMITIVE_TYPE_LINE, header line 146. -/
def METAL_PRIMITIVE_TYPE_LINE : Nat := 1

/-- METAL_PRIMITIVE_TYPE_LINE_STRIP, header line 147. -/
def METAL_PRIMITIVE_TYPE_LINE_STRIP : Nat := 2

/-- METAL_PRIMITIVE_TYPE_TRIANGLE, header line 148. -/
def METAL_PRIMITIVE_TYPE_TRIANGLE : Nat := 3

/-- METAL_PRIMITIVE_TYPE_TRIANGLE_STRIP, header line 149. -/
def METAL_PRIMITIVE_TYPE_TRIANGLE_STRIP : Nat := 4

/-- Modelled from the spec: the native API enumeration value
MTLPixelFormatBGRA8Unorm, as documented by the header comment on line 92
(the native API itself is not part of this repository). -/
def MTLPixelFormatBGRA8Unorm : Nat := 80

/-- Modelled from the spec: native MTLPixelFormatRGBA8Unorm value. -/
def MTLPixelFormatRGBA8Unorm : Nat := 70

/-- Modelled from the spec: native MTLPixelFormatRGBA32Float value. -/
def MTLPixelFormatRGBA32Float : Nat := 115

/-- Modelled from the spec: native MTLBlendFactorZero value. -/
def MTLBlendFactorZero : Nat := 0

/-- Modelled from the spec: native MTLBlendFactorOne value. -/
def MTLBlendFactorOne : Nat := 1

/-- Modelled from the spec: native MTLBlendFactorSourceAlpha value. -/
def MTLBlendFactorSourceAlpha : Nat := 4

/-- Modelled from the spec: native MTLBlendFactorOneMinusSourceAlpha value. -/
def MTLBlendFactorOneMinusSourceAlpha : Nat := 5

/-- Modelled from the spec: native MTLBlendOperationAdd value. -/
def MTLBlendOperationAdd : Nat := 0

/-- Modelled from the spec: native MTLPrimitiveType values for point, line,
line strip, triangle, triangle strip. -/
def MTLPrimitiveTypeValues : List Nat := [0, 1, 2, 3, 4]

/-- The primitive-topology constants of the header, as a list in header
order (lines 145 to 149). -/
def metalPrimitiveTypeConstants : List Nat :=
  [METAL_PRIMITIVE_TYPE_POINT, METAL_PRIMITIVE_TYPE_LINE,
   METAL_PRIMITIVE_TYPE_LINE_STRIP, METAL_PRIMITIVE_TYPE_TRIANGLE,
   METAL_PRIMITIVE_TYPE_TRIANGLE_STRIP]

/- C declaration surface embedded from the header. -/

/-- A C function declaration: name, parameter type list, return type. -/
structure CDecl where
  name : String
  params : List String
  ret : String
  deriving DecidableEq, Repr

/-- The device-section declarations of src/src/gpu/metal_bridge.h
(lines 26 to 33), embedded verbatim. -/
def deviceDecls : List CDecl :=
  [⟨"metal_is_available", [], "bool"⟩,
   ⟨"metal_create_device", [], "MetalDevice"⟩,
   ⟨"metal_release_device", ["MetalDevice"], "void"⟩,
   ⟨"metal_get_device_count", [], "uint32_t"⟩,
   ⟨"metal_get_device_at_index", ["uint32_t"], "MetalDevice"⟩,
   ⟨"metal_device_get_name", ["MetalDevice"], "const char*"⟩]

/- Buffers and storage modes. -/

/-- Storage modes of a buffer (spec section 4.3: shared, managed, private). -/
inductive StorageMode where
  | shared
  | managed
  | privateStorage
  deriving DecidableEq, Repr

/-- Modelled from the spec: decoding of the storage-mode bits of a
MetalResourceOptions word. The header (lines 55 to 59) states the options
match the native MTLResourceOptions layout, whose storage mode occupies the
bits starting at bit 4: shared is 0, managed is 1, private is 2. -/
def storageOfOptions (options : Nat) : StorageMode :=
  match (options >>> 4) % 16 with
  | 0 => .shared
  | 1 => .managed
  | 2 => .privateStorage
  | _ => .shared

/-- Modelled from the spec: the observable state of a buffer resource. The
implementation behind the header is not in src/; the spec (sections 3
and 4.3) gives a buffer a fixed byte length, a storage mode, and contents
transferred by upload and download. Bytes are modelled as natural numbers. -/
structure Buffer where
  length : Nat
  storage : StorageMode
  contents : List Nat
  deriving DecidableEq, Repr

/-- Modelled from the spec: metal_create_buffer_with_options (header
line 63). Zero size is rejected with InvalidArgument (spec section 4.3);
otherwise a buffer of the given length is allocated, zero filled, with the
storage mode decoded from the options word. The device handle does not
affect the observable buffer state. -/
def metal_create_buffer_with_options (device : Nat) (size : Nat)
    (options : Nat) : Except MetalError Buffer :=
  if size = 0 then .error .invalidArgument
  else .ok ⟨size, storageOfOptions options, List.replicate size 0⟩

/-- Modelled from the spec: metal_create_buffer (header line 62). The two
argument form passes no options word, so the allocation uses the native
default options value 0, whose storage mode is shared. -/
def metal_create_buffer (device : Nat) (size : Nat) :
    Except MetalError Buffer :=
  if size = 0 then .error .invalidArgument
  else .ok ⟨size, .shared, List.replicate size 0⟩

/-- Modelled from the spec: metal_buffer_upload (header line 65), a
synchronous copy of the given bytes into the front of the buffer. A length
exceeding the allocated size is SizeMismatch (spec section 4.3). -/
def metal_buffer_upload (b : Buffer) (data : List Nat) :
    Except MetalError Buffer :=
  if b.length < data.length then .error .sizeMismatch
  else .ok ⟨b.length, b.storage, data ++ b.contents.drop data.length⟩

/-- Modelled from the spec: metal_buffer_download (header line 66), a
synchronous copy of the first n bytes of the buffer out to the caller. A
length exceeding the allocated size is SizeMismatch. -/
def metal_buffer_download (b : Buffer) (n : Nat) :
    Except MetalError (List Nat) :=
  if b.length < n then .error .sizeMismatch
  else .ok (b.contents.take n)

/-- Modelled from the spec: metal_buffer_get_contents (header line 67).
On a private-storage buffer it fails with UnsupportedOperation and exposes
nothing; on shared and managed storage it exposes the CPU-visible bytes
(spec section 4.3). -/
def metal_buffer_get_contents (b : Buffer) :
    Except MetalError (List Nat) :=
  match b.storage with
  | .privateStorage => .error .unsupportedOperation
  | _ => .ok b.contents

/-- Modelled from the spec: metal_buffer_get_length (header line 68),
returning the allocated byte length. -/
def metal_buffer_get_length (b : Buffer) : Nat := b.length

/- Handle registry. -/

/-- Lookup of a handle in a slot list: the first pair whose key matches. -/
def findSlot (h : Nat) : List (Nat × α) → Option α
  | [] => none
  | (k, x) :: rest => if k = h then some x else findSlot h rest

/-- Modelled from the spec: the Handle Registry (spec section 4.1), the one
place mapping opaque handles to native objects. Handles are never reused:
a counter only grows. The native object type is abstract here. -/
structure Registry (α : Type) where
  nextHandle : Nat
  slots : List (Nat × α)
  deriving DecidableEq, Repr

/-- The empty registry. -/
def Registry.empty : Registry α := ⟨0, []⟩

/-- Modelled from the spec: registry create, issuing a fresh handle for a
native object (spec section 4.1). -/
def Registry.create (r : Registry α) (x : α) : Nat × Registry α :=
  (r.nextHandle, ⟨r.nextHandle + 1, (r.nextHandle, x) :: r.slots⟩)

/-- Modelled from the spec: registry resolve, returning the registered
object or InvalidHandle (spec section 4.1). -/
def Registry.resolve (r : Registry α) (h : Nat) : Except MetalError α :=
  match findSlot h r.slots with
  | some x => .ok x
  | none => .error .invalidHandle

/-- Modelled from the spec: registry release. Releasing an unknown or
already released handle is a no-op error, InvalidHandle, never undefined
behaviour (spec section 4.1). -/
def Registry.release (r : Registry α) (h : Nat) :
    Except MetalError (Registry α) :=
  match findSlot h r.slots with
  | some _ => .ok ⟨r.nextHandle, r.slots.filter (fun p => p.1 != h)⟩
  | none => .error .invalidHandle

/- Command buffers and encoders. -/

/-- The three encoder kinds of the header: compute (line 77), render
(line 118), blit (line 87). -/
inductive EncoderKind where
  | compute
  | render
  | blit
  deriving DecidableEq, Repr

/-- Phases of a command buffer (spec section 4.5): Recording, Committed,
Completed. -/
inductive CBPhase where
  | recording
  | committed
  | completed
  deriving DecidableEq, Repr

/-- Modelled from the spec: the observable state of a command buffer, the
phase together with the kind of the currently open encoder, if any (spec
sections 4.5 and 4.6; the implementation behind the header is not in
src/). An errored call leaves the state unchanged, so each operation below
returns the successor state only on success. -/
structure CmdBuf where
  phase : CBPhase
  openEncoder : Option EncoderKind
  deriving DecidableEq, Repr

/-- Modelled from the spec: metal_create_command_buffer (header line 71)
enters Recording with no open encoder. The queue handle does not affect
the observable state. -/
def metal_create_command_buffer (queue : Nat) : CmdBuf :=
  ⟨.recording, none⟩

/-- Modelled from the spec: opening an encoder of any kind is valid only
in Recording with no open encoder; opening while one is already open, or
on a committed buffer, is InvalidState (spec section 4.5). -/
def createEncoder (k : EncoderKind) (cb : CmdBuf) :
    Except MetalError CmdBuf :=
  if cb.phase = .recording then
    match cb.openEncoder with
    | some _ => .error .invalidState
    | none => .ok ⟨.recording, some k⟩
  else .error .invalidState

/-- Modelled from the spec: metal_create_compute_encoder (header
line 77). -/
def metal_create_compute_encoder (cb : CmdBuf) : Except MetalError CmdBuf :=
  createEncoder .compute cb

/-- Modelled from the spec: metal_create_render_encoder (header line 118);
the render pass descriptor handle does not affect the sequencing state. -/
def metal_create_render_encoder (cb : CmdBuf) (descriptor : Nat) :
    Except MetalError CmdBuf :=
  createEncoder .render cb

/-- Modelled from the spec: metal_create_blit_encoder (header line 87). -/
def metal_create_blit_encoder (cb : CmdBuf) : Except MetalError CmdBuf :=
  createEncoder .blit cb

/-- Modelled from the spec: metal_encoder_end (header line 83) closes the
open encoder, returning the buffer to Recording with no open encoder;
ending when no encoder is open is InvalidState (spec section 4.5). -/
def metal_encoder_end (cb : CmdBuf) : Except MetalError CmdBuf :=
  if cb.phase = .recording then
    match cb.openEncoder with
    | some _ => .ok ⟨.recording, none⟩
    | none => .error .invalidState
  else .error .invalidState

/-- Modelled from the spec: an encoder mutation call (set pipeline, set
texture, set buffer, set bytes, draw, blit copy) is valid only while the
encoder is the currently open one on its buffer (spec section 4.5). -/
def encoderMutation (cb : CmdBuf) : Except MetalError CmdBuf :=
  if cb.phase = .recording ∧ cb.openEncoder.isSome then .ok cb
  else .error .invalidState

/-- Modelled from the spec: metal_encoder_set_pipeline (header line 78). -/
def metal_encoder_set_pipeline (cb : CmdBuf) (pipeline : Nat) :
    Except MetalError CmdBuf :=
  encoderMutation cb

/-- Modelled from the spec: metal_encoder_set_buffer (header line 80). -/
def metal_encoder_set_buffer (cb : CmdBuf) (buffer index : Nat) :
    Except MetalError CmdBuf :=
  encoderMutation cb

/-- Modelled from the spec: metal_encoder_dispatch (header line 82); grid
and group dimensions must be positive, InvalidArgument otherwise (spec
section 4.5). -/
def metal_encoder_dispatch (cb : CmdBuf)
    (gridW gridH groupW groupH : Nat) : Except MetalError CmdBuf :=
  if gridW = 0 ∨ gridH = 0 ∨ groupW = 0 ∨ groupH = 0 then
    .error .invalidArgument
  else encoderMutation cb

/-- Modelled from the spec: metal_commit_command_buffer (header line 72)
is valid only from Recording with no open encoder and transitions to
Committed; committing with an open encoder, or twice, is InvalidState
(spec sections 4.5 and 4.6). -/
def metal_commit_command_buffer (cb : CmdBuf) : Except MetalError CmdBuf :=
  if cb.phase = .recording ∧ cb.openEncoder = none then
    .ok ⟨.committed, none⟩
  else .error .invalidState

/-- Modelled from the spec: metal_wait_for_completion (header line 73)
blocks until the committed buffer completes, or returns immediately if it
is already completed (spec section 4.6). The result carries the observed
status, whether the call blocked, and the successor buffer state. -/
def metal_wait_for_completion (cb : CmdBuf) :
    Except MetalError (CBPhase × Bool × CmdBuf) :=
  match cb.phase with
  | .recording => .error .invalidState
  | .committed => .ok (.completed, true, ⟨.completed, none⟩)
  | .completed => .ok (.completed, false, cb)

/- Devices. -/

/-- Modelled from the spec: the platform facts device enumeration depends
on, the number of enumerable GPUs and whether the platform supports the
native API at all (spec section 4.2; the implementation behind the header
is not in src/). -/
structure DeviceEnv where
  deviceCount : Nat
  gpuSupported : Bool
  deriving DecidableEq, Repr

/-- Modelled from the spec: metal_is_available (header line 26), the
capability probe that never fails. -/
def metal_is_available (env : DeviceEnv) : Bool := env.gpuSupported

/-- Modelled from the spec: metal_get_device_count (header line 31). -/
def metal_get_device_count (env : DeviceEnv) : Nat :=
  if env.gpuSupported then env.deviceCount else 0

/-- Modelled from the spec: metal_get_device_at_index (header line 32)
yields the device at an in-range index of the enumerated sequence and
fails with DeviceUnavailable when the index is out of range or the
platform lacks GPU support (spec section 4.2). -/
def metal_get_device_at_index (env : DeviceEnv) (index : Nat) :
    Except MetalError Nat :=
  if env.gpuSupported ∧ index < env.deviceCount then .ok index
  else .error .deviceUnavailable

/-- Modelled from the spec: metal_create_device (header line 27, declared
with no parameters) yields the default device and fails with
DeviceUnavailable when the platform lacks GPU support or exposes no
device. -/
def metal_create_device (env : DeviceEnv) : Except MetalError Nat :=
  if env.gpuSupported ∧ 0 < env.deviceCount then .ok 0
  else .error .deviceUnavailable

/- Helper lemmas. -/

/-- Filtering out the pairs keyed by the looked-up handle makes the lookup
fail. -/
theorem findSlot_filter_self (h : Nat) (l : List (Nat × α)) :
    findSlot h (l.filter fun p => p.1 != h) = none := by
  induction l with
  | nil => rfl
  | cons p rest ih =>
    by_cases hp : p.1 = h
    · simp [List.filter_cons, hp, ih]
    · simp [List.filter_cons, hp, findSlot, ih]

/-- Filtering out the pairs keyed by a different handle leaves the lookup
unchanged. -/
theorem findSlot_filter_other (h g : Nat) (hne : g ≠ h)
    (l : List (Nat × α)) :
    findSlot h (l.filter fun p => p.1 != g) = findSlot h l := by
  induction l with
  | nil => rfl
  | cons p rest ih =>
    by_cases hpg : p.1 = g
    · have hph : p.1 ≠ h := by rw [hpg]; exact hne
      simp [List.filter_cons, hpg, findSlot, hph, hne, ih]
    · by_cases hph : p.1 = h
      · simp [List.filter_cons, hpg, findSlot, hph, Ne.symm hne]
      · simp [List.filter_cons, hpg, findSlot, hph, ih]

/-- A successful upload preserves the allocated length. -/
theorem upload_length (b : Buffer) (data : List Nat) (b2 : Buffer)
    (h : metal_buffer_upload b data = .ok b2) : b2.length = b.length := by
  unfold metal_buffer_upload at h
  split at h
  · exact absurd h (by simp)
  · simp only [Except.ok.injEq] at h
    subst h
    rfl

/- Claim theorems. -/

/-- C8: the numeric constants exposed for pixel formats, blend factors and
operations, and primitive topologies are small integers equal to the
native API enumeration values, and the blend constant set includes the
factors zero, one, source alpha, one minus source alpha (values 0, 1, 4,
5), the add operation (value 0), and BGRA8Unorm equal to 80. -/
theorem c8_numeric_constants :
    METAL_PIXEL_FORMAT_BGRA8_UNORM = MTLPixelFormatBGRA8Unorm ∧
    METAL_PIXEL_FORMAT_RGBA8_UNORM = MTLPixelFormatRGBA8Unorm ∧
    METAL_PIXEL_FORMAT_RGBA32_FLOAT = MTLPixelFormatRGBA32Float ∧
    METAL_BLEND_FACTOR_ZERO = MTLBlendFactorZero ∧
    METAL_BLEND_FACTOR_ONE = MTLBlendFactorOne ∧
    METAL_BLEND_FACTOR_SOURCE_ALPHA = MTLBlendFactorSourceAlpha ∧
    METAL_BLEND_FACTOR_ONE_MINUS_SOURCE_ALPHA =
      MTLBlendFactorOneMinusSourceAlpha ∧
    METAL_BLEND_OP_ADD = MTLBlendOperationAdd ∧
    metalPrimitiveTypeConstants = MTLPrimitiveTypeValues ∧
    METAL_BLEND_FACTOR_ZERO = 0 ∧
    METAL_BLEND_FACTOR_ONE = 1 ∧
    METAL_BLEND_FACTOR_SOURCE_ALPHA = 4 ∧
    METAL_BLEND_FACTOR_ONE_MINUS_SOURCE_ALPHA = 5 ∧
    METAL_BLEND_OP_ADD = 0 ∧
    METAL_PIXEL_FORMAT_BGRA8_UNORM = 80 ∧
    METAL_PIXEL_FORMAT_BGRA8_UNORM < 256 ∧
    METAL_PIXEL_FORMAT_RGBA8_UNORM < 256 ∧
    METAL_PIXEL_FORMAT_RGBA32_FLOAT < 256 ∧
    ∀ c ∈ metalPrimitiveTypeConstants, c < 256 := by
  decide

/-- C9: the two-argument metal_create_buffer is observably identical to
metal_create_buffer_with_options with the shared storage constant, so
upload, download, get_contents and get_length behave the same on the two
results. -/
theorem c9_default_storage_is_shared (device n m : Nat) (data : List Nat) :
    metal_create_buffer device n =
      metal_create_buffer_with_options device n
        METAL_RESOURCE_STORAGE_MODE_SHARED ∧
    (metal_create_buffer device n).map
        (fun b => (metal_buffer_upload b data, metal_buffer_download b m,
          metal_buffer_get_contents b, metal_buffer_get_length b)) =
      (metal_create_buffer_with_options device n
          METAL_RESOURCE_STORAGE_MODE_SHARED).map
        (fun b => (metal_buffer_upload b data, metal_buffer_download b m,
          metal_buffer_get_contents b, metal_buffer_get_length b)) :=
  ⟨rfl, rfl⟩

/-- C4: uploading any byte sequence no longer than the capacity of a
shared-storage buffer and then downloading that many bytes yields exactly
the original sequence. -/
theorem c4_upload_download_roundtrip (b : Buffer) (data : List Nat)
    (hs : b.storage = .shared) (hn : data.length ≤ b.length) :
    ∃ b2, metal_buffer_upload b data = .ok b2 ∧
      metal_buffer_download b2 data.length = .ok data := by
  refine ⟨⟨b.length, b.storage, data ++ b.contents.drop data.length⟩,
    ?_, ?_⟩
  · simp [metal_buffer_upload, Nat.not_lt.mpr hn]
  · simp [metal_buffer_download, Nat.not_lt.mpr hn, List.take_left]

/-- C4 witness: the round trip on a concrete shared buffer of capacity 4
and the three bytes 9, 8, 7. -/
theorem c4_upload_download_roundtrip_witness :
    ∃ b2, metal_buffer_upload ⟨4, .shared, [0, 0, 0, 0]⟩ [9, 8, 7] =
        .ok b2 ∧
      metal_buffer_download b2 3 = .ok [9, 8, 7] :=
  c4_upload_download_roundtrip ⟨4, .shared, [0, 0, 0, 0]⟩ [9, 8, 7] rfl
    (by decide)

/-- C5: a buffer created with the private storage constant fails
get_contents with UnsupportedOperation, while get_contents on any shared
or managed buffer exposes its CPU-visible bytes. -/
theorem c5_private_storage_get_contents (device n : Nat) (b2 : Buffer)
    (hn : 0 < n) (hb2 : b2.storage = .shared ∨ b2.storage = .managed) :
    (∃ b, metal_create_buffer_with_options device n
        METAL_RESOURCE_STORAGE_MODE_PRIVATE = .ok b ∧
      metal_buffer_get_contents b = .error .unsupportedOperation) ∧
    metal_buffer_get_contents b2 = .ok b2.contents := by
  constructor
  · refine ⟨⟨n, .privateStorage, List.replicate n 0⟩, ?_, rfl⟩
    simp [metal_create_buffer_with_options, hn.ne', storageOfOptions,
      METAL_RESOURCE_STORAGE_MODE_PRIVATE]
  · rcases hb2 with h | h <;> simp [metal_buffer_get_contents, h]

/-- C5 witness: a concrete private buffer of 4 bytes and a concrete
managed buffer holding the bytes 5, 6. -/
theorem c5_private_storage_get_contents_witness :
    (∃ b, metal_create_buffer_with_options 0 4
        METAL_RESOURCE_STORAGE_MODE_PRIVATE = .ok b ∧
      metal_buffer_get_contents b = .error .unsupportedOperation) ∧
    metal_buffer_get_contents ⟨2, .managed, [5, 6]⟩ = .ok [5, 6] :=
  c5_private_storage_get_contents 0 4 ⟨2, .managed, [5, 6]⟩ (by decide)
    (Or.inr rfl)

/-- C10: metal_buffer_get_length returns exactly the creation size for a
buffer created by either creation call, with any storage mode, and a
successful upload preserves it (download has no effect on the buffer
state in this model, so it cannot change the length either). -/
theorem c10_buffer_length_stable (device n options : Nat)
    (b b1 b2 : Buffer) (data : List Nat)
    (hc : metal_create_buffer_with_options device n options = .ok b)
    (hc1 : metal_create_buffer device n = .ok b1)
    (hup : metal_buffer_upload b data = .ok b2) :
    metal_buffer_get_length b = n ∧ metal_buffer_get_length b1 = n ∧
    metal_buffer_get_length b2 = n := by
  by_cases h0 : n = 0
  · simp [metal_create_buffer_with_options, h0] at hc
  · simp [metal_create_buffer_with_options, h0] at hc
    simp [metal_create_buffer, h0] at hc1
    have hb : metal_buffer_get_length b = n := by
      rw [← hc]; rfl
    have hb1 : metal_buffer_get_length b1 = n := by
      rw [← hc1]; rfl
    exact ⟨hb, hb1, by rw [metal_buffer_get_length, upload_length b data b2 hup, ← hb, metal_buffer_get_length]⟩

/-- C10 witness: a managed buffer and a shared buffer of 3 bytes, with a
two-byte upload into the managed one. -/
theorem c10_buffer_length_stable_witness :
    metal_buffer_get_length ⟨3, .managed, [0, 0, 0]⟩ = 3 ∧
    metal_buffer_get_length ⟨3, .shared, [0, 0, 0]⟩ = 3 ∧
    metal_buffer_get_length ⟨3, .managed, [1, 2, 0]⟩ = 3 :=
  c10_buffer_length_stable 0 3 METAL_RESOURCE_STORAGE_MODE_MANAGED
    ⟨3, .managed, [0, 0, 0]⟩ ⟨3, .shared, [0, 0, 0]⟩
    ⟨3, .managed, [1, 2, 0]⟩ [1, 2] rfl rfl rfl

/-- C1: on a recording command buffer that already has an open encoder,
each of the three encoder-creation calls fails with InvalidState (an
errored call returns no successor state, so the buffer is unchanged),
while metal_encoder_end closes the encoder and returns the buffer to the
no-open-encoder state, from which an encoder of any kind opens
successfully. -/
theorem c1_single_open_encoder (cb : CmdBuf) (k : EncoderKind)
    (descriptor : Nat) (hp : cb.phase = .recording)
    (he : cb.openEncoder = some k) :
    metal_create_compute_encoder cb = .error .invalidState ∧
    metal_create_render_encoder cb descriptor = .error .invalidState ∧
    metal_create_blit_encoder cb = .error .invalidState ∧
    metal_encoder_end cb = .ok ⟨.recording, none⟩ ∧
    ∀ k2 : EncoderKind, createEncoder k2 ⟨.recording, none⟩ =
      .ok ⟨.recording, some k2⟩ := by
  refine ⟨?_, ?_, ?_, ?_, ?_⟩ <;>
    simp [metal_create_compute_encoder, metal_create_render_encoder,
      metal_create_blit_encoder, createEncoder, metal_encoder_end, hp, he]

/-- C1 witness: a concrete recording buffer with an open compute
encoder. -/
theorem c1_single_open_encoder_witness :
    metal_create_compute_encoder ⟨.recording, some .compute⟩ =
      .error .invalidState ∧
    metal_create_render_encoder ⟨.recording, some .compute⟩ 0 =
      .error .invalidState ∧
    metal_create_blit_encoder ⟨.recording, some .compute⟩ =
      .error .invalidState ∧
    metal_encoder_end ⟨.recording, some .compute⟩ =
      .ok ⟨.recording, none⟩ ∧
    ∀ k2 : EncoderKind, createEncoder k2 ⟨.recording, none⟩ =
      .ok ⟨.recording, some k2⟩ :=
  c1_single_open_encoder ⟨.recording, some .compute⟩ .compute 0 rfl rfl

/-- C2: committing a buffer with an open encoder fails with InvalidState
(and, errors returning no successor state, the buffer stays in Recording
with its encoder open), and on a committed buffer every encoder-creation
and mutation call, and a second commit, fail with InvalidState. -/
theorem c2_commit_protocol (cb cc : CmdBuf) (k : EncoderKind)
    (descriptor pipeline buffer index : Nat)
    (hp : cb.phase = .recording) (he : cb.openEncoder = some k)
    (hc : cc.phase = .committed) :
    metal_commit_command_buffer cb = .error .invalidState ∧
    metal_create_compute_encoder cc = .error .invalidState ∧
    metal_create_render_encoder cc descriptor = .error .invalidState ∧
    metal_create_blit_encoder cc = .error .invalidState ∧
    metal_encoder_set_pipeline cc pipeline = .error .invalidState ∧
    metal_encoder_set_buffer cc buffer index = .error .invalidState ∧
    metal_encoder_dispatch cc 1 1 1 1 = .error .invalidState ∧
    metal_commit_command_buffer cc = .error .invalidState := by
  refine ⟨?_, ?_, ?_, ?_, ?_, ?_, ?_, ?_⟩ <;>
    simp [metal_commit_command_buffer, metal_create_compute_encoder,
      metal_create_render_encoder, metal_create_blit_encoder,
      metal_encoder_set_pipeline, metal_encoder_set_buffer,
      metal_encoder_dispatch, encoderMutation, createEncoder, hp, he, hc]

/-- C2 witness: a concrete recording buffer with an open render encoder
and a concrete committed buffer. -/
theorem c2_commit_protocol_witness :
    metal_commit_command_buffer ⟨.recording, some .render⟩ =
      .error .invalidState ∧
    metal_create_compute_encoder ⟨.committed, none⟩ =
      .error .invalidState ∧
    metal_create_render_encoder ⟨.committed, none⟩ 0 =
      .error .invalidState ∧
    metal_create_blit_encoder ⟨.committed, none⟩ =
      .error .invalidState ∧
    metal_encoder_set_pipeline ⟨.committed, none⟩ 7 =
      .error .invalidState ∧
    metal_encoder_set_buffer ⟨.committed, none⟩ 3 0 =
      .error .invalidState ∧
    metal_encoder_dispatch ⟨.committed, none⟩ 1 1 1 1 =
      .error .invalidState ∧
    metal_commit_command_buffer ⟨.committed, none⟩ =
      .error .invalidState :=
  c2_commit_protocol ⟨.recording, some .render⟩ ⟨.committed, none⟩
    .render 0 7 3 0 rfl rfl rfl

/-- C7: on a committed buffer, metal_wait_for_completion yields the
completed status; calling it again on the resulting buffer yields the same
completed status and does not block. -/
theorem c7_wait_idempotent (cb : CmdBuf) (hp : cb.phase = .committed) :
    ∃ cb2, metal_wait_for_completion cb = .ok (.completed, true, cb2) ∧
      metal_wait_for_completion cb2 = .ok (.completed, false, cb2) := by
  obtain ⟨ph, oe⟩ := cb
  simp only [] at hp
  subst hp
  exact ⟨⟨.completed, none⟩, rfl, rfl⟩

/-- C7 witness: a concrete committed buffer. -/
theorem c7_wait_idempotent_witness :
    ∃ cb2, metal_wait_for_completion ⟨.committed, none⟩ =
        .ok (.completed, true, cb2) ∧
      metal_wait_for_completion cb2 = .ok (.completed, false, cb2) :=
  c7_wait_idempotent ⟨.committed, none⟩ rfl

/-- C3: a handle issued by registry create resolves to the registered
object, and keeps doing so across creation of other objects and release of
other handles; after its own release, resolve and release on that handle
both return InvalidHandle, and release on a handle unknown to the registry
(here, the empty registry) is also InvalidHandle. -/
theorem c3_handle_registry_lifecycle {α : Type} (r : Registry α)
    (x y : α) (g : Nat) (r2 r3 : Registry α)
    (hg : g ≠ (r.create x).1)
    (hrel : ((r.create x).2).release g = .ok r2)
    (hrel2 : ((r.create x).2).release (r.create x).1 = .ok r3) :
    ((r.create x).2).resolve (r.create x).1 = .ok x ∧
    ((((r.create x).2).create y).2).resolve (r.create x).1 = .ok x ∧
    r2.resolve (r.create x).1 = .ok x ∧
    r3.resolve (r.create x).1 = .error .invalidHandle ∧
    r3.release (r.create x).1 = .error .invalidHandle ∧
    (Registry.empty (α := α)).release (r.create x).1 =
      .error .invalidHandle := by
  refine ⟨?_, ?_, ?_, ?_, ?_, ?_⟩
  · simp [Registry.create, Registry.resolve, findSlot]
  · simp [Registry.create, Registry.resolve, findSlot,
      Nat.succ_ne_self r.nextHandle]
  · unfold Registry.release at hrel
    unfold Registry.create at hrel hg ⊢
    split at hrel
    · simp only [Except.ok.injEq] at hrel
      subst hrel
      simp only [Registry.resolve, findSlot_filter_other _ _ hg, findSlot]
      simp
    · exact absurd hrel (by simp)
  · unfold Registry.release at hrel2
    split at hrel2
    · simp only [Except.ok.injEq] at hrel2
      subst hrel2
      simp [Registry.resolve, findSlot_filter_self]
    · exact absurd hrel2 (by simp)
  · unfold Registry.release at hrel2 ⊢
    split at hrel2
    · simp only [Except.ok.injEq] at hrel2
      subst hrel2
      simp [findSlot_filter_self]
    · exact absurd hrel2 (by simp)
  · simp [Registry.empty, Registry.release, findSlot]

/-- C3 witness: a registry already holding object 99 at handle 0; object
10 is registered at handle 1, object 20 is registered afterwards, handle 0
is released without disturbing handle 1, then handle 1 itself is
released. -/
theorem c3_handle_registry_lifecycle_witness :
    (((Registry.empty.create 99).2.create 10).2).resolve
        ((Registry.empty.create 99).2.create 10).1 = .ok 10 ∧
    (((((Registry.empty.create 99).2.create 10).2).create 20).2).resolve
        ((Registry.empty.create 99).2.create 10).1 = .ok 10 ∧
    (Registry.resolve ⟨2, [(1, 10)]⟩
        ((Registry.empty.create 99).2.create 10).1) = .ok 10 ∧
    (Registry.resolve ⟨2, [(0, 99)]⟩
        ((Registry.empty.create 99).2.create 10).1) =
      .error .invalidHandle ∧
    (Registry.release ⟨2, [(0, 99)]⟩
        ((Registry.empty.create 99).2.create 10).1) =
      .error .invalidHandle ∧
    (Registry.empty (α := Nat)).release
        ((Registry.empty.create 99).2.create 10).1 =
      .error .invalidHandle :=
  c3_handle_registry_lifecycle (Registry.empty.create 99).2 10 20 0
    ⟨2, [(1, 10)]⟩ ⟨2, [(0, 99)]⟩ (by decide) rfl rfl

/-- C6 counterexample: in the header, metal_create_device is declared with
an empty parameter list, so it does not take a device index; no
declaration named metal_create_device has parameters. -/
theorem c6_create_device_takes_no_index :
    deviceDecls.find? (fun d => d.name == "metal_create_device") =
      some ⟨"metal_create_device", [], "MetalDevice"⟩ ∧
    ∀ d ∈ deviceDecls, d.name = "metal_create_device" → d.params = [] := by
  refine ⟨rfl, ?_⟩
  decide

/-- C6 amended: metal_create_device takes no index and fails with
DeviceUnavailable when the platform lacks GPU support; the call that does
take a device index is metal_get_device_at_index, which fails with
DeviceUnavailable when the index is out of range of the enumerated
sequence or the platform lacks GPU support, and returns a valid Device
handle for an in-range index on a supported platform. -/
theorem c6_device_lookup_amended (env envOut envOff : DeviceEnv)
    (i j : Nat) (hSup : env.gpuSupported = true)
    (hi : i < env.deviceCount) (hOut : envOut.deviceCount ≤ j)
    (hOff : envOff.gpuSupported = false) :
    (∃ d, metal_get_device_at_index env i = .ok d) ∧
    metal_get_device_at_index envOut j = .error .deviceUnavailable ∧
    metal_get_device_at_index envOff i = .error .deviceUnavailable ∧
    metal_create_device envOff = .error .deviceUnavailable := by
  refine ⟨⟨i, ?_⟩, ?_, ?_, ?_⟩ <;>
    simp [metal_get_device_at_index, metal_create_device, hSup, hi,
      Nat.not_lt.mpr hOut, hOff]

/-- C6 amended witness: a supported platform with two devices at index 1,
the same platform at the out-of-range index 5, and an unsupported
platform. -/
theorem c6_device_lookup_amended_witness :
    (∃ d, metal_get_device_at_index ⟨2, true⟩ 1 = .ok d) ∧
    metal_get_device_at_index ⟨2, true⟩ 5 = .error .deviceUnavailable ∧
    metal_get_device_at_index ⟨3, false⟩ 1 = .error .deviceUnavailable ∧
    metal_create_device ⟨3, false⟩ = .error .deviceUnavailable :=
  c6_device_lookup_amended ⟨2, true⟩ ⟨2, true⟩ ⟨3, false⟩ 1 5 rfl
    (by decide) (by decide) rfl

end MetalBridge
